import Mathlib

/-!
Shallow embedding of the lazy-cache / merge / policy core of the
`issue_db_api` Rust client (files `api_core.rs`, `models.rs`,
`repository.rs`), together with theorems settling the specification
claims about it.

Conventions of the embedding:
* the `Lazy<T>` memo cell of the `lazy_init` crate is modelled as an
  explicit two-state cell `Lazy α` with the crate's `get` /
  `get_or_create` operations;
* interior mutation (Rust `&self` methods that populate cells) is
  modelled by returning the new cell / record state;
* the remote service is an abstract oracle (a function from request to
  `Except`-wrapped response), and every operation additionally returns
  the list of remote calls it issued, so that claims about "how many
  fetches" and "which request" are statable;
* Rust panics (`expect`) are a distinguished `panic` outcome, separate
  from ordinary `Err` results;
* `serde_json::Value` is modelled without floating point numbers
  (no claim inspects numeric config payloads).
-/

namespace IssueDB

/-- A remote transport/server failure, opaque to the cache layer. -/
structure RemoteError where
  msg : String
deriving DecidableEq, Repr

/-- The error raised when an ordering key cannot be parsed as an
unsigned 128-bit integer (`errors.rs` `IDParsingError`). -/
structure IDParsingError where
  msg : String
deriving DecidableEq, Repr

/-- Model of `lazy_init::Lazy<T>`: a memo cell that is either `empty`
or `populated` with an immutable value. -/
inductive Lazy (α : Type) where
  | empty : Lazy α
  | populated : α → Lazy α
deriving DecidableEq

/-- `Lazy::get`: returns the cached value if present; never any I/O. -/
def Lazy.get : Lazy α → Option α
  | .empty => none
  | .populated x => some x

/-- `Lazy::get_or_create(producer)`: returns the cached value if
present, otherwise runs the producer once, stores the result and
returns it.  The pair is (cell after the call, value returned). -/
def Lazy.get_or_create (c : Lazy α) (producer : Unit → α) : Lazy α × α :=
  match c with
  | .populated x => (.populated x, x)
  | .empty =>
    let v := producer ()
    (.populated v, v)

/-- Modelled from the spec: the `initialize_lazy_field!` macro of
`util.rs` (not in the provided sources).  Per the spec, a record
constructed from a remote response is "partially/fully populated, when
constructed from a remote response that returned a subset or superset
of attributes": a present (`some`) raw field pre-populates the cell,
an absent (`none`) one leaves it `empty`. -/
def init_lazy_field : Option α → Lazy α
  | some v => .populated v
  | none => .empty

/-- Model of `serde_json::Value` (floats omitted; no claim inspects
numeric payloads). -/
inductive Value where
  | null : Value
  | bool : Bool → Value
  | num : Int → Value
  | str : String → Value
  | arr : List Value → Value
  | obj : List (String × Value) → Value

/-- A `HashMap<String, Value>` config payload, as an association list. -/
abbrev ConfigMap := List (String × Value)

/-- The `IssueAttribute` enum of `config.rs` (not in the provided
sources); its variants are fixed by their uses in `api_core.rs`. -/
inductive IssueAttribute where
  | Key | Summary | Description | Comments | Parent | Subtasks
  | IssueLinks | Status | Priority | Resolution | IssueType
  | Watches | Votes | DateCreated | DateUpdated | DateResolved
  | Labels | Components | AffectedVersions | FixVersions
deriving DecidableEq, Repr

/-- A `{name}`-shaped sub-object of a raw issue response
(status, priority, resolution, issue type, components, versions). -/
structure NamedField where
  name : String
deriving DecidableEq, Repr

/-- A raw comment object carrying a `body` field. -/
structure RawCommentBody where
  body : String
deriving DecidableEq, Repr

/-- The raw `watches` sub-object (`watch_count` field). -/
structure WatchInfo where
  watch_count : Nat
deriving DecidableEq, Repr

/-- The raw `votes` sub-object (`votes` field). -/
structure VoteInfo where
  votes : Nat
deriving DecidableEq, Repr

/-- `RawIssueData` of `schemas/raw_issue_response.rs` (not in the
provided sources).  Its fields are fixed by their uses in
`IssueData::from_raw_data`; every field is optional because a remote
response returns a subset of attributes.  The `issue_links` field is
modelled from the spec (a raw response may carry any attribute);
`from_raw_data` never reads it. -/
structure RawIssueData where
  key : Option String := none
  summary : Option String := none
  description : Option String := none
  comments : Option (List RawCommentBody) := none
  status : Option NamedField := none
  resolution : Option (Option NamedField) := none
  priority : Option NamedField := none
  issuetype : Option NamedField := none
  issue_links : Option (List String) := none
  parent : Option (Option String) := none
  subtasks : Option (List String) := none
  watches : Option WatchInfo := none
  votes : Option VoteInfo := none
  created : Option String := none
  updated : Option String := none
  resolutiondate : Option (Option String) := none
  labels : Option (List String) := none
  components : Option (List NamedField) := none
  versions : Option (List NamedField) := none
  fix_versions : Option (List NamedField) := none
deriving DecidableEq

/-- `RawIssueData::default()`: every field absent. -/
def RawIssueData.default : RawIssueData := {}

/-- The `IssueData` struct of `api_core.rs`: an identifier plus one
lazy cell per domain attribute. -/
structure IssueData where
  ident : String
  key : Lazy String
  summary : Lazy String
  description : Lazy String
  comments : Lazy (List String)
  status : Lazy String
  priority : Lazy String
  resolution : Lazy (Option String)
  issue_type : Lazy String
  issue_links : Lazy (List String)
  parent : Lazy (Option String)
  subtasks : Lazy (List String)
  watches : Lazy Nat
  votes : Lazy Nat
  date_created : Lazy String
  date_updated : Lazy String
  date_resolved : Lazy (Option String)
  labels : Lazy (List String)
  components : Lazy (List String)
  affected_versions : Lazy (List String)
  fix_versions : Lazy (List String)
deriving DecidableEq

/-- `IssueData::from_raw_data`: build a record from a raw response,
pre-populating exactly the cells whose raw field is present.  The
`issue_links` cell is always pre-populated with the empty vector and
the raw `issue_links` data is never read. -/
def IssueData.from_raw_data (ident : String) (value : RawIssueData) : IssueData :=
  { ident := ident
    key := init_lazy_field value.key
    summary := init_lazy_field value.summary
    description := init_lazy_field value.description
    comments := init_lazy_field (value.comments.map (fun v => v.map (fun c => c.body)))
    status := init_lazy_field (value.status.map (fun x => x.name))
    resolution := init_lazy_field (value.resolution.map (fun x => x.map (fun y => y.name)))
    priority := init_lazy_field (value.priority.map (fun x => x.name))
    issue_type := init_lazy_field (value.issuetype.map (fun x => x.name))
    issue_links := init_lazy_field (some [])
    parent := init_lazy_field value.parent
    subtasks := init_lazy_field value.subtasks
    watches := init_lazy_field (value.watches.map (fun x => x.watch_count))
    votes := init_lazy_field (value.votes.map (fun x => x.votes))
    date_created := init_lazy_field value.created
    date_updated := init_lazy_field value.updated
    date_resolved := init_lazy_field value.resolutiondate
    labels := init_lazy_field value.labels
    components := init_lazy_field (value.components.map (fun v => v.map (fun c => c.name)))
    affected_versions := init_lazy_field (value.versions.map (fun v => v.map (fun c => c.name)))
    fix_versions := init_lazy_field (value.fix_versions.map (fun v => v.map (fun c => c.name))) }

/-- `IssueData::new_empty`: a record with only an identifier. -/
def IssueData.new_empty (ident : String) : IssueData :=
  IssueData.from_raw_data ident RawIssueData.default

/-- The `maybe_copy_attribute!` macro of `api_core.rs`: if the donor
cell is populated, `get_or_create` the target cell with (a clone of)
the donor's value — which populates it only when it was empty. -/
def maybe_copy_attribute (self other : Lazy α) : Lazy α :=
  match other.get with
  | some x => (self.get_or_create (fun _ => x)).1
  | none => self

/-- `IssueData::update(&self, other)`: merge the donor `other` into
`self`, cell by cell.  The donor is consumed by value in the source
(no value can flow back into it). -/
def IssueData.update (self : IssueData) (other : IssueData) : IssueData :=
  { self with
    key := maybe_copy_attribute self.key other.key
    summary := maybe_copy_attribute self.summary other.summary
    description := maybe_copy_attribute self.description other.description
    comments := maybe_copy_attribute self.comments other.comments
    parent := maybe_copy_attribute self.parent other.parent
    subtasks := maybe_copy_attribute self.subtasks other.subtasks
    issue_links := maybe_copy_attribute self.issue_links other.issue_links
    status := maybe_copy_attribute self.status other.status
    priority := maybe_copy_attribute self.priority other.priority
    resolution := maybe_copy_attribute self.resolution other.resolution
    issue_type := maybe_copy_attribute self.issue_type other.issue_type
    watches := maybe_copy_attribute self.watches other.watches
    votes := maybe_copy_attribute self.votes other.votes
    date_created := maybe_copy_attribute self.date_created other.date_created
    date_updated := maybe_copy_attribute self.date_updated other.date_updated
    date_resolved := maybe_copy_attribute self.date_resolved other.date_resolved
    labels := maybe_copy_attribute self.labels other.labels
    components := maybe_copy_attribute self.components other.components
    affected_versions := maybe_copy_attribute self.affected_versions other.affected_versions
    fix_versions := maybe_copy_attribute self.fix_versions other.fix_versions }

/-- A request issued to the `issue-data` endpoint: the issue-id list
and the attribute list of `IssueAPI::get_issue_data`. -/
abbrev Request := List String × List IssueAttribute

/-- The remote side of `IssueAPI` as an abstract oracle: the parsed
body of a (successful) `issue-data` response, or a transport failure.
The response maps issue identifiers to raw issue data. -/
structure IssueAPI where
  raw_response : List String → List IssueAttribute → Except RemoteError (List (String × RawIssueData))

/-- `IssueAPI::get_issue_data`: call the endpoint and convert each
raw entry into an `IssueData` record via `from_raw_data`. -/
def IssueAPI.get_issue_data (api : IssueAPI) (issues : List String)
    (attributes : List IssueAttribute) :
    Except RemoteError (List (String × IssueData)) :=
  match api.raw_response issues attributes with
  | .error e => .error e
  | .ok data => .ok (data.map (fun p => (p.1, IssueData.from_raw_data p.1 p.2)))

/-- The observable outcome of one lazy-attribute access: an ordinary
value (with the cell state after the call), an ordinary remote error
(the `?` path), or a Rust panic (the `expect` paths). -/
inductive LoadResult (α : Type) where
  | ok : α → Lazy α → LoadResult α
  | err : RemoteError → LoadResult α
  | panic : String → LoadResult α
deriving DecidableEq

/-- The `load_lazy_attribute!` macro of `api_core.rs`: if the cell is
populated return it; otherwise fetch exactly this record's identifier
and exactly this one attribute, look the identifier up in the
response (`expect`: panic when absent), read the attribute cell of
the record built from the response (`expect`: panic when empty), and
store the value via `get_or_create`.  Also returns the list of remote
requests issued. -/
def load_lazy_attribute (api : IssueAPI) (ident : String) (cell : Lazy α)
    (attr : IssueAttribute) (field : IssueData → Lazy α) :
    LoadResult α × List Request :=
  match cell.get with
  | some x => (.ok x cell, [])
  | none =>
    match api.get_issue_data [ident] [attr] with
    | .error e => (.err e, [([ident], [attr])])
    | .ok m =>
      match m.lookup ident with
      | none => (.panic ("Issue data lookup failed"), [([ident], [attr])])
      | some record =>
        match (field record).get with
        | none => (.panic ("Invalid missing data during lookup"), [([ident], [attr])])
        | some value =>
          let r := cell.get_or_create (fun _ => value)
          (.ok r.2 r.1, [([ident], [attr])])

/-- Accessor `IssueData::key`. -/
def IssueData.get_key (self : IssueData) (api : IssueAPI) : LoadResult String × List Request :=
  load_lazy_attribute api self.ident self.key IssueAttribute.Key (fun r => r.key)

/-- Accessor `IssueData::summary`. -/
def IssueData.get_summary (self : IssueData) (api : IssueAPI) : LoadResult String × List Request :=
  load_lazy_attribute api self.ident self.summary IssueAttribute.Summary (fun r => r.summary)

/-- Accessor `IssueData::description`. -/
def IssueData.get_description (self : IssueData) (api : IssueAPI) : LoadResult String × List Request :=
  load_lazy_attribute api self.ident self.description IssueAttribute.Description (fun r => r.description)

/-- Accessor `IssueData::comments`. -/
def IssueData.get_comments (self : IssueData) (api : IssueAPI) : LoadResult (List String) × List Request :=
  load_lazy_attribute api self.ident self.comments IssueAttribute.Comments (fun r => r.comments)

/-- Accessor `IssueData::parent`. -/
def IssueData.get_parent (self : IssueData) (api : IssueAPI) : LoadResult (Option String) × List Request :=
  load_lazy_attribute api self.ident self.parent IssueAttribute.Parent (fun r => r.parent)

/-- Accessor `IssueData::subtasks`. -/
def IssueData.get_subtasks (self : IssueData) (api : IssueAPI) : LoadResult (List String) × List Request :=
  load_lazy_attribute api self.ident self.subtasks IssueAttribute.Subtasks (fun r => r.subtasks)

/-- Accessor `IssueData::issue_links`. -/
def IssueData.get_issue_links (self : IssueData) (api : IssueAPI) : LoadResult (List String) × List Request :=
  load_lazy_attribute api self.ident self.issue_links IssueAttribute.IssueLinks (fun r => r.issue_links)

/-- Accessor `IssueData::status`. -/
def IssueData.get_status (self : IssueData) (api : IssueAPI) : LoadResult String × List Request :=
  load_lazy_attribute api self.ident self.status IssueAttribute.Status (fun r => r.status)

/-- Accessor `IssueData::priority`. -/
def IssueData.get_priority (self : IssueData) (api : IssueAPI) : LoadResult String × List Request :=
  load_lazy_attribute api self.ident self.priority IssueAttribute.Priority (fun r => r.priority)

/-- Accessor `IssueData::resolution`. -/
def IssueData.get_resolution (self : IssueData) (api : IssueAPI) : LoadResult (Option String) × List Request :=
  load_lazy_attribute api self.ident self.resolution IssueAttribute.Resolution (fun r => r.resolution)

/-- Accessor `IssueData::issue_type`. -/
def IssueData.get_issue_type (self : IssueData) (api : IssueAPI) : LoadResult String × List Request :=
  load_lazy_attribute api self.ident self.issue_type IssueAttribute.IssueType (fun r => r.issue_type)

/-- Accessor `IssueData::watches` (the source's `.map(|x| *x)` deref
copy is the identity in this by-value embedding). -/
def IssueData.get_watches (self : IssueData) (api : IssueAPI) : LoadResult Nat × List Request :=
  load_lazy_attribute api self.ident self.watches IssueAttribute.Watches (fun r => r.watches)

/-- Accessor `IssueData::votes` (deref copy is the identity here). -/
def IssueData.get_votes (self : IssueData) (api : IssueAPI) : LoadResult Nat × List Request :=
  load_lazy_attribute api self.ident self.votes IssueAttribute.Votes (fun r => r.votes)

/-- Accessor `IssueData::date_created`. -/
def IssueData.get_date_created (self : IssueData) (api : IssueAPI) : LoadResult String × List Request :=
  load_lazy_attribute api self.ident self.date_created IssueAttribute.DateCreated (fun r => r.date_created)

/-- Accessor `IssueData::date_updated`. -/
def IssueData.get_date_updated (self : IssueData) (api : IssueAPI) : LoadResult String × List Request :=
  load_lazy_attribute api self.ident self.date_updated IssueAttribute.DateUpdated (fun r => r.date_updated)

/-- Accessor `IssueData::date_resolved`. -/
def IssueData.get_date_resolved (self : IssueData) (api : IssueAPI) : LoadResult (Option String) × List Request :=
  load_lazy_attribute api self.ident self.date_resolved IssueAttribute.DateResolved (fun r => r.date_resolved)

/-- Accessor `IssueData::labels`. -/
def IssueData.get_labels (self : IssueData) (api : IssueAPI) : LoadResult (List String) × List Request :=
  load_lazy_attribute api self.ident self.labels IssueAttribute.Labels (fun r => r.labels)

/-- Accessor `IssueData::components`. -/
def IssueData.get_components (self : IssueData) (api : IssueAPI) : LoadResult (List String) × List Request :=
  load_lazy_attribute api self.ident self.components IssueAttribute.Components (fun r => r.components)

/-- Accessor `IssueData::affected_versions`. -/
def IssueData.get_affected_versions (self : IssueData) (api : IssueAPI) : LoadResult (List String) × List Request :=
  load_lazy_attribute api self.ident self.affected_versions IssueAttribute.AffectedVersions (fun r => r.affected_versions)

/-- Accessor `IssueData::fix_versions`. -/
def IssueData.get_fix_versions (self : IssueData) (api : IssueAPI) : LoadResult (List String) × List Request :=
  load_lazy_attribute api self.ident self.fix_versions IssueAttribute.FixVersions (fun r => r.fix_versions)

/-- The `ConfigHandlingPolicy` enum of `config.rs` (not in the
provided sources).  The two recognized variants are named in
`models.rs`; the third is the spec's "future slot" variant
(`ReadLocalWriteWithFetch`), which the source's `_` match arms lump
with `ReadLocalWriteNoFetch` on reads and with
`ReadFetchWriteWithFetch` on pre-write fetches. -/
inductive ConfigHandlingPolicy where
  | ReadLocalWriteNoFetch
  | ReadFetchWriteWithFetch
  | ReadLocalWriteWithFetch
deriving DecidableEq, Repr

/-- The parsed body of a `models/{id}` GET response
(`UnboundModelConfig` in `models.rs`). -/
structure UnboundModelConfig where
  model_id : String
  model_name : String
  model_config : ConfigMap

/-- One remote call issued by a `Model` method: a config fetch for a
model id, or a config write of (id, name, config). -/
inductive ModelCall where
  | fetch : String → ModelCall
  | write : String → String → ConfigMap → ModelCall

/-- The remote side of the model-config endpoints as an abstract
oracle: `get_model_config` is the fetch outcome, `write_result` the
outcome of `update_model_config` for a given payload. -/
structure ModelAPI where
  get_model_config : String → Except RemoteError UnboundModelConfig
  write_result : String → String → ConfigMap → Except RemoteError Unit

/-- The `Model` struct of `models.rs`: identifier, locally cached
name, the `CacheContainer` config cache (modelled from the spec as an
optional stored value, since `util.rs` is not in the provided
sources), and the construction-time policy.  The `Arc<IssueAPI>`
handle is externalized: each method takes the remote oracle as an
argument. -/
structure Model where
  id : String
  name : String
  config : Option ConfigMap
  data_policy : ConfigHandlingPolicy

/-- `Model::name()`: under `ReadFetchWriteWithFetch` fetch the remote
name; under every other policy return the locally cached name.
Returns (result, calls issued). -/
def Model.get_name (m : Model) (api : ModelAPI) :
    Except RemoteError String × List ModelCall :=
  match m.data_policy with
  | .ReadFetchWriteWithFetch =>
    match api.get_model_config m.id with
    | .ok r => (.ok r.model_name, [.fetch m.id])
    | .error e => (.error e, [.fetch m.id])
  | _ => (.ok m.name, [])

/-- `Model::config()`: under `ReadFetchWriteWithFetch` always fetch,
never touching the local cache; under every other policy,
`CacheContainer::get` — return the cached value when present, else
fetch once and store (modelled from the spec's Lazy Field Cell
contract for the missing `util.rs`: a failed producer leaves the cell
empty).  Returns (result, model state after, calls issued). -/
def Model.get_config (m : Model) (api : ModelAPI) :
    Except RemoteError ConfigMap × Model × List ModelCall :=
  match m.data_policy with
  | .ReadFetchWriteWithFetch =>
    match api.get_model_config m.id with
    | .ok r => (.ok r.model_config, m, [.fetch m.id])
    | .error e => (.error e, m, [.fetch m.id])
  | _ =>
    match m.config with
    | some cfg => (.ok cfg, m, [])
    | none =>
      match api.get_model_config m.id with
      | .ok r => (.ok r.model_config, { m with config := some r.model_config }, [.fetch m.id])
      | .error e => (.error e, m, [.fetch m.id])

/-- `Model::update_config(new_config)`: obtain the companion name
(locally under `ReadLocalWriteNoFetch`, by a remote fetch — with `?`
propagation — under every other policy), then issue the remote write.
The source DISCARDS the write's `Result` (no `?` on
`self.api.update_model_config(...)`), unconditionally overwrites the
local config cache (`self.config.set(config)?`) and returns `Ok(())`;
this embedding reproduces that faithfully.
Returns (result, model state after, calls issued). -/
def Model.update_config (m : Model) (api : ModelAPI) (config : ConfigMap) :
    Except RemoteError Unit × Model × List ModelCall :=
  match m.data_policy with
  | .ReadLocalWriteNoFetch =>
    let _ := api.write_result m.id m.name config
    (.ok (), { m with config := some config }, [.write m.id m.name config])
  | _ =>
    match api.get_model_config m.id with
    | .error e => (.error e, m, [.fetch m.id])
    | .ok r =>
      let _ := api.write_result m.id r.model_name config
      (.ok (), { m with config := some config },
       [.fetch m.id, .write m.id r.model_name config])

/-- `Model::update_name(name)`: obtain the companion config (from the
`CacheContainer` — fetching and caching once when empty — under
`ReadLocalWriteNoFetch`, by a plain remote fetch under every other
policy; both fetches propagate failure with `?`), then issue the
remote write.  As in `update_config`, the source DISCARDS the write's
`Result` and unconditionally sets `self.name = name`; this embedding
reproduces that faithfully.
Returns (result, model state after, calls issued). -/
def Model.update_name (m : Model) (api : ModelAPI) (name : String) :
    Except RemoteError Unit × Model × List ModelCall :=
  match m.data_policy with
  | .ReadLocalWriteNoFetch =>
    match m.config with
    | some cfg =>
      let _ := api.write_result m.id name cfg
      (.ok (), { m with name := name }, [.write m.id name cfg])
    | none =>
      match api.get_model_config m.id with
      | .error e => (.error e, m, [.fetch m.id])
      | .ok r =>
        let _ := api.write_result m.id name r.model_config
        (.ok (), { m with name := name, config := some r.model_config },
         [.fetch m.id, .write m.id name r.model_config])
  | _ =>
    match api.get_model_config m.id with
    | .error e => (.error e, m, [.fetch m.id])
    | .ok r =>
      let _ := api.write_result m.id name r.model_config
      (.ok (), { m with name := name }, [.fetch m.id, .write m.id name r.model_config])

/-- `impl PartialEq for Model`: equality purely by `id`. -/
def Model.beq (a b : Model) : Bool := a.id == b.id

/-- `impl Hash for Model`, modelled as the sequence of field values
fed to the hasher: only `id` is hashed. -/
def Model.hash_stream (m : Model) : List String := [m.id]

/-- The `ModelVersion` struct of `models.rs` (the `Arc<IssueAPI>`
handle is externalized, as for `Model`). -/
structure ModelVersion where
  model : String
  version : String
  time : String

/-- `impl PartialEq for ModelVersion`: equality by the
(model, version) key pair. -/
def ModelVersion.beq (a b : ModelVersion) : Bool :=
  a.model == b.model && a.version == b.version

/-- `impl Hash for ModelVersion`, modelled as the sequence of field
values fed to the hasher: `version` then `model`, nothing else. -/
def ModelVersion.hash_stream (v : ModelVersion) : List String :=
  [v.version, v.model]

/-- `UnboundComment` of `comments.rs` (only its three fields are used
by `api_core.rs`). -/
structure UnboundComment where
  id : String
  author : String
  text : String
deriving DecidableEq, Repr

/-- The `RawComment` deserialization struct local to
`get_labeling_comments_for_issue`. -/
structure RawComment where
  author : String
  comment : String
deriving DecidableEq, Repr

/-- Rust's `str::parse::<u128>`: an optional leading `+`, then one or
more ASCII digits, value below `2^128`; anything else fails. -/
def parse_u128 (s : String) : Option Nat :=
  let digits : List Char :=
    match s.data with
    | c :: rest => if c = '+' then rest else s.data
    | [] => []
  if digits.isEmpty then none
  else if digits.all Char.isDigit then
    let n := digits.foldl (fun acc c => acc * 10 + (c.toNat - 48)) 0
    if n < 2 ^ 128 then some n else none
  else none

/-- The id-parsing loop of `get_labeling_comments_for_issue`: parse
every comment id as a `u128`, returning at the first failure. -/
def parse_comment_ids : List UnboundComment → Except IDParsingError (List Nat)
  | [] => .ok []
  | c :: rest =>
    match parse_u128 c.id with
    | none => .error { msg := c.id }
    | some n =>
      match parse_comment_ids rest with
      | .error e => .error e
      | .ok ns => .ok (n :: ns)

/-- The per-entry conversion inside
`get_labeling_comments_for_issue`: a `(key, RawComment)` response
entry becomes an `UnboundComment` whose `id` is the key. -/
def raw_to_comment (p : String × RawComment) : UnboundComment :=
  { id := p.1, author := p.2.author, text := p.2.comment }

/-- `IssueAPI::get_labeling_comments_for_issue`, from the parsed
response body (a map from id string to raw comment, given here in its
iteration order): convert to `UnboundComment`s, parse every key as a
`u128` (a failure aborts the whole call with an `IDParsingError`),
sort the (key, comment) pairs by key with a stable sort
(Rust's `sort_by_key`; `List.insertionSort` with `≤` on the key is
stable, hence produces the same list), and drop the keys. -/
def get_labeling_comments_for_issue (response : List (String × RawComment)) :
    Except IDParsingError (List UnboundComment) :=
  let converted : List UnboundComment := response.map raw_to_comment
  match parse_comment_ids converted with
  | .error e => .error e
  | .ok object_ids =>
    let pairs := object_ids.zip converted
    let sorted := List.insertionSort (fun p q => p.1 ≤ q.1) pairs
    .ok (sorted.map Prod.snd)

/-! ## Merge lemmas -/

/-- Per-cell merge postcondition: a populated target cell survives
unchanged, and an empty target cell takes the donor's populated
value. -/
def cellMergeOk (t d r : Lazy α) : Prop :=
  (∀ v, t = .populated v → r = .populated v) ∧
  (t = .empty → ∀ v, d = .populated v → r = .populated v)

theorem maybe_copy_keeps_populated (t d : Lazy α) (v : α)
    (h : t = .populated v) : maybe_copy_attribute t d = .populated v := by
  subst h; cases d <;> rfl

theorem maybe_copy_fills_empty (t d : Lazy α) (v : α)
    (ht : t = .empty) (hd : d = .populated v) :
    maybe_copy_attribute t d = .populated v := by
  subst ht; subst hd; rfl

theorem maybe_copy_ok (t d : Lazy α) :
    cellMergeOk t d (maybe_copy_attribute t d) :=
  ⟨fun v h => maybe_copy_keeps_populated t d v h,
   fun ht v hd => maybe_copy_fills_empty t d v ht hd⟩

theorem maybe_copy_idem (t d : Lazy α) :
    maybe_copy_attribute (maybe_copy_attribute t d) d = maybe_copy_attribute t d := by
  cases t <;> cases d <;> rfl

/-! ## Sample records for concrete witnesses -/

/-- A partially populated record: `summary` and `issue_links`
populated, everything else empty. -/
def targetA : IssueData :=
  { ident := "X-1"
    key := .empty
    summary := .populated ("S")
    description := .empty
    comments := .empty
    status := .empty
    priority := .empty
    resolution := .empty
    issue_type := .empty
    issue_links := .populated []
    parent := .empty
    subtasks := .empty
    watches := .empty
    votes := .empty
    date_created := .empty
    date_updated := .empty
    date_resolved := .empty
    labels := .empty
    components := .empty
    affected_versions := .empty
    fix_versions := .empty }

/-- An independently obtained record for the same identifier, with
`key` and `summary` populated (the `summary` disagrees with
`targetA`'s). -/
def donorA : IssueData :=
  { ident := "X-1"
    key := .populated ("K")
    summary := .populated ("T")
    description := .empty
    comments := .empty
    status := .empty
    priority := .empty
    resolution := .empty
    issue_type := .empty
    issue_links := .populated [("L-9")]
    parent := .empty
    subtasks := .empty
    watches := .populated 7
    votes := .empty
    date_created := .empty
    date_updated := .empty
    date_resolved := .empty
    labels := .empty
    components := .empty
    affected_versions := .empty
    fix_versions := .empty }

/-- C1: merge postcondition.  For every pair of `IssueData` records
with the same identifier, after `update(target, donor)` every cell
that was populated in the target keeps its value (even when the donor
disagrees), and every cell empty in the target and populated in the
donor becomes populated with the donor's value — for each of the 20
attribute cells.  The donor is consumed by value in the source, so no
value can flow from the target into it. -/
theorem merge_postcondition (target donor : IssueData)
    (_hid : target.ident = donor.ident) :
    cellMergeOk target.key donor.key (target.update donor).key ∧
    cellMergeOk target.summary donor.summary (target.update donor).summary ∧
    cellMergeOk target.description donor.description (target.update donor).description ∧
    cellMergeOk target.comments donor.comments (target.update donor).comments ∧
    cellMergeOk target.status donor.status (target.update donor).status ∧
    cellMergeOk target.priority donor.priority (target.update donor).priority ∧
    cellMergeOk target.resolution donor.resolution (target.update donor).resolution ∧
    cellMergeOk target.issue_type donor.issue_type (target.update donor).issue_type ∧
    cellMergeOk target.issue_links donor.issue_links (target.update donor).issue_links ∧
    cellMergeOk target.parent donor.parent (target.update donor).parent ∧
    cellMergeOk target.subtasks donor.subtasks (target.update donor).subtasks ∧
    cellMergeOk target.watches donor.watches (target.update donor).watches ∧
    cellMergeOk target.votes donor.votes (target.update donor).votes ∧
    cellMergeOk target.date_created donor.date_created (target.update donor).date_created ∧
    cellMergeOk target.date_updated donor.date_updated (target.update donor).date_updated ∧
    cellMergeOk target.date_resolved donor.date_resolved (target.update donor).date_resolved ∧
    cellMergeOk target.labels donor.labels (target.update donor).labels ∧
    cellMergeOk target.components donor.components (target.update donor).components ∧
    cellMergeOk target.affected_versions donor.affected_versions (target.update donor).affected_versions ∧
    cellMergeOk target.fix_versions donor.fix_versions (target.update donor).fix_versions :=
  ⟨maybe_copy_ok _ _, maybe_copy_ok _ _, maybe_copy_ok _ _, maybe_copy_ok _ _,
   maybe_copy_ok _ _, maybe_copy_ok _ _, maybe_copy_ok _ _, maybe_copy_ok _ _,
   maybe_copy_ok _ _, maybe_copy_ok _ _, maybe_copy_ok _ _, maybe_copy_ok _ _,
   maybe_copy_ok _ _, maybe_copy_ok _ _, maybe_copy_ok _ _, maybe_copy_ok _ _,
   maybe_copy_ok _ _, maybe_copy_ok _ _, maybe_copy_ok _ _, maybe_copy_ok _ _⟩

/-- Witness for C1: on the concrete pair `targetA` / `donorA` (same
identifier `X-1`), the empty `key` takes the donor's value, the
populated `summary` keeps the target's value despite the donor
disagreeing, and the populated `issue_links` is untouched. -/
theorem merge_postcondition_witness :
    (targetA.update donorA).key = .populated ("K") ∧
    (targetA.update donorA).summary = .populated ("S") ∧
    (targetA.update donorA).issue_links = .populated [] := by
  have h := merge_postcondition targetA donorA rfl
  exact ⟨h.1.2 rfl ("K") rfl,
         h.2.1.1 ("S") rfl,
         (h.2.2.2.2.2.2.2.2.1 : cellMergeOk _ _ _).1 [] rfl⟩

/-- C9: merge idempotence.  For records with the same identifier,
merging the same donor in twice leaves the target exactly as merging
it once. -/
theorem merge_idempotent (target donor : IssueData)
    (_hid : target.ident = donor.ident) :
    (target.update donor).update donor = target.update donor := by
  cases target; cases donor
  simp [IssueData.update, maybe_copy_idem]

/-- Witness for C9: the concrete pair `targetA` / `donorA`. -/
theorem merge_idempotent_witness :
    (targetA.update donorA).update donorA = targetA.update donorA :=
  merge_idempotent targetA donorA rfl

/-- C10: the `issue_links` cell is populated with the empty vector on
every construction path (`from_raw_data` and `new_empty`), the
`issue_links` accessor therefore performs no remote call and returns
the empty vector, no merge can change it, and any `issue_links` data
in a raw response is discarded by `from_raw_data`. -/
theorem issue_links_invariant :
    (∀ ident raw, (IssueData.from_raw_data ident raw).issue_links = .populated []) ∧
    (∀ ident, (IssueData.new_empty ident).issue_links = .populated []) ∧
    (∀ ident raw api,
       IssueData.get_issue_links (IssueData.from_raw_data ident raw) api
         = (.ok [] (.populated []), [])) ∧
    (∀ ident raw donor,
       ((IssueData.from_raw_data ident raw).update donor).issue_links = .populated []) ∧
    (∀ ident raw links,
       IssueData.from_raw_data ident { raw with issue_links := links }
         = IssueData.from_raw_data ident raw) := by
  refine ⟨fun ident raw => rfl, fun ident => rfl, fun ident raw api => rfl, ?_, ?_⟩
  · intro ident raw donor
    exact maybe_copy_keeps_populated _ _ _ rfl
  · intro ident raw links
    cases raw; rfl

/-! ## Lazy-accessor lemmas (C4, C5) -/

/-- Looking an identifier up in the converted response equals building
`from_raw_data` from the raw entry found for that identifier. -/
theorem lookup_map_from_raw (raws : List (String × RawIssueData))
    (ident : String) (record : RawIssueData)
    (h : raws.lookup ident = some record) :
    (raws.map (fun p => (p.1, IssueData.from_raw_data p.1 p.2))).lookup ident
      = some (IssueData.from_raw_data ident record) := by
  induction raws with
  | nil => simp [List.lookup] at h
  | cons p rest ih =>
    obtain ⟨k, v⟩ := p
    by_cases hk : ident = k
    · subst hk
      simp [List.lookup] at h ⊢
      exact congrArg (IssueData.from_raw_data ident) h
    · have hb : (ident == k) = false := beq_false_of_ne hk
      simp [List.lookup, hb] at h ⊢
      exact ih h

/-- The contract of one attribute accessor built from
`load_lazy_attribute!`: a populated cell is returned with no remote
call; an empty cell issues exactly one request, for exactly this
record's identifier and exactly this one attribute; and when the
response supplies the attribute for the identifier, that remote value
is what is stored and returned. -/
def accessor_contract {α : Type}
    (acc : IssueData → IssueAPI → LoadResult α × List Request)
    (field : IssueData → Lazy α) (attr : IssueAttribute) : Prop :=
  ∀ (self : IssueData) (api : IssueAPI),
    (∀ v, field self = .populated v → acc self api = (.ok v (.populated v), [])) ∧
    (field self = .empty → (acc self api).2 = [([self.ident], [attr])]) ∧
    (∀ raws record v, field self = .empty →
      api.raw_response [self.ident] [attr] = .ok raws →
      raws.lookup self.ident = some record →
      field (IssueData.from_raw_data self.ident record) = .populated v →
      acc self api = (.ok v (.populated v), [([self.ident], [attr])]))

/-- The generic accessor contract, proved once for
`load_lazy_attribute` and instantiated for each accessor. -/
theorem load_lazy_attribute_contract {α : Type} (api : IssueAPI) (ident : String)
    (cell : Lazy α) (attr : IssueAttribute) (field : IssueData → Lazy α) :
    (∀ v, cell = .populated v →
      load_lazy_attribute api ident cell attr field = (.ok v (.populated v), [])) ∧
    (cell = .empty →
      (load_lazy_attribute api ident cell attr field).2 = [([ident], [attr])]) ∧
    (∀ raws record v, cell = .empty →
      api.raw_response [ident] [attr] = .ok raws →
      raws.lookup ident = some record →
      field (IssueData.from_raw_data ident record) = .populated v →
      load_lazy_attribute api ident cell attr field
        = (.ok v (.populated v), [([ident], [attr])])) := by
  refine ⟨?_, ?_, ?_⟩
  · intro v h; subst h; rfl
  · intro h; subst h
    unfold load_lazy_attribute IssueAPI.get_issue_data
    cases hr : api.raw_response [ident] [attr] with
    | error e => simp [Lazy.get, hr]
    | ok raws =>
      simp only [Lazy.get, hr]
      cases hl : (raws.map (fun p => (p.1, IssueData.from_raw_data p.1 p.2))).lookup ident with
      | none => simp [hl]
      | some record =>
        simp only [hl]
        cases field record <;> rfl
  · intro raws record v hc hr hl hf
    subst hc
    have hl2 := lookup_map_from_raw raws ident record hl
    unfold load_lazy_attribute IssueAPI.get_issue_data
    simp [Lazy.get, hr, hl2, hf, Lazy.get_or_create]

/-- C4: every `IssueData` attribute accessor satisfies the lazy-cache
contract: a populated cell is returned from cache with no remote
call; an empty cell triggers exactly one remote request, for exactly
this record's identifier and exactly the one missing attribute, and
the value stored in the cell and returned is the value the remote
response supplies for that attribute of that identifier. -/
theorem accessor_contract_all :
    accessor_contract IssueData.get_key (fun r => r.key) IssueAttribute.Key ∧
    accessor_contract IssueData.get_summary (fun r => r.summary) IssueAttribute.Summary ∧
    accessor_contract IssueData.get_description (fun r => r.description) IssueAttribute.Description ∧
    accessor_contract IssueData.get_comments (fun r => r.comments) IssueAttribute.Comments ∧
    accessor_contract IssueData.get_parent (fun r => r.parent) IssueAttribute.Parent ∧
    accessor_contract IssueData.get_subtasks (fun r => r.subtasks) IssueAttribute.Subtasks ∧
    accessor_contract IssueData.get_issue_links (fun r => r.issue_links) IssueAttribute.IssueLinks ∧
    accessor_contract IssueData.get_status (fun r => r.status) IssueAttribute.Status ∧
    accessor_contract IssueData.get_priority (fun r => r.priority) IssueAttribute.Priority ∧
    accessor_contract IssueData.get_resolution (fun r => r.resolution) IssueAttribute.Resolution ∧
    accessor_contract IssueData.get_issue_type (fun r => r.issue_type) IssueAttribute.IssueType ∧
    accessor_contract IssueData.get_watches (fun r => r.watches) IssueAttribute.Watches ∧
    accessor_contract IssueData.get_votes (fun r => r.votes) IssueAttribute.Votes ∧
    accessor_contract IssueData.get_date_created (fun r => r.date_created) IssueAttribute.DateCreated ∧
    accessor_contract IssueData.get_date_updated (fun r => r.date_updated) IssueAttribute.DateUpdated ∧
    accessor_contract IssueData.get_date_resolved (fun r => r.date_resolved) IssueAttribute.DateResolved ∧
    accessor_contract IssueData.get_labels (fun r => r.labels) IssueAttribute.Labels ∧
    accessor_contract IssueData.get_components (fun r => r.components) IssueAttribute.Components ∧
    accessor_contract IssueData.get_affected_versions (fun r => r.affected_versions) IssueAttribute.AffectedVersions ∧
    accessor_contract IssueData.get_fix_versions (fun r => r.fix_versions) IssueAttribute.FixVersions :=
  ⟨fun self api => load_lazy_attribute_contract api self.ident self.key IssueAttribute.Key (fun r => r.key),
   fun self api => load_lazy_attribute_contract api self.ident self.summary IssueAttribute.Summary (fun r => r.summary),
   fun self api => load_lazy_attribute_contract api self.ident self.description IssueAttribute.Description (fun r => r.description),
   fun self api => load_lazy_attribute_contract api self.ident self.comments IssueAttribute.Comments (fun r => r.comments),
   fun self api => load_lazy_attribute_contract api self.ident self.parent IssueAttribute.Parent (fun r => r.parent),
   fun self api => load_lazy_attribute_contract api self.ident self.subtasks IssueAttribute.Subtasks (fun r => r.subtasks),
   fun self api => load_lazy_attribute_contract api self.ident self.issue_links IssueAttribute.IssueLinks (fun r => r.issue_links),
   fun self api => load_lazy_attribute_contract api self.ident self.status IssueAttribute.Status (fun r => r.status),
   fun self api => load_lazy_attribute_contract api self.ident self.priority IssueAttribute.Priority (fun r => r.priority),
   fun self api => load_lazy_attribute_contract api self.ident self.resolution IssueAttribute.Resolution (fun r => r.resolution),
   fun self api => load_lazy_attribute_contract api self.ident self.issue_type IssueAttribute.IssueType (fun r => r.issue_type),
   fun self api => load_lazy_attribute_contract api self.ident self.watches IssueAttribute.Watches (fun r => r.watches),
   fun self api => load_lazy_attribute_contract api self.ident self.votes IssueAttribute.Votes (fun r => r.votes),
   fun self api => load_lazy_attribute_contract api self.ident self.date_created IssueAttribute.DateCreated (fun r => r.date_created),
   fun self api => load_lazy_attribute_contract api self.ident self.date_updated IssueAttribute.DateUpdated (fun r => r.date_updated),
   fun self api => load_lazy_attribute_contract api self.ident self.date_resolved IssueAttribute.DateResolved (fun r => r.date_resolved),
   fun self api => load_lazy_attribute_contract api self.ident self.labels IssueAttribute.Labels (fun r => r.labels),
   fun self api => load_lazy_attribute_contract api self.ident self.components IssueAttribute.Components (fun r => r.components),
   fun self api => load_lazy_attribute_contract api self.ident self.affected_versions IssueAttribute.AffectedVersions (fun r => r.affected_versions),
   fun self api => load_lazy_attribute_contract api self.ident self.fix_versions IssueAttribute.FixVersions (fun r => r.fix_versions)⟩

/-- A raw response entry supplying only the `key` attribute. -/
def rawKeyed : RawIssueData := { key := some ("K-remote") }

/-- A concrete oracle answering every request with a record for
`X-1` whose `key` is populated. -/
def apiA : IssueAPI :=
  { raw_response := fun _ _ => .ok [(("X-1"), rawKeyed)] }

/-- Witness for C4: on the concrete record `targetA` (whose `key`
cell is empty) the `key` accessor issues exactly one request, for
identifier `X-1` and attribute `Key` only, and stores and returns the
remote value; on `donorA` (whose `key` is populated) it returns the
cached value with no request. -/
theorem accessor_contract_all_witness :
    IssueData.get_key targetA apiA
      = (.ok ("K-remote") (.populated ("K-remote")), [([("X-1")], [IssueAttribute.Key])]) ∧
    IssueData.get_key donorA apiA = (.ok ("K") (.populated ("K")), []) := by
  constructor
  · exact (accessor_contract_all.1 targetA apiA).2.2 [(("X-1"), rawKeyed)] rawKeyed
      ("K-remote") rfl rfl (by simp [List.lookup, targetA]) rfl
  · exact (accessor_contract_all.1 donorA apiA).1 ("K") rfl

/-- Looking up an identifier absent from the raw response is also
absent from the converted response. -/
theorem lookup_map_from_raw_none (raws : List (String × RawIssueData))
    (ident : String) (h : raws.lookup ident = none) :
    (raws.map (fun p => (p.1, IssueData.from_raw_data p.1 p.2))).lookup ident = none := by
  induction raws with
  | nil => rfl
  | cons p rest ih =>
    obtain ⟨k, v⟩ := p
    by_cases hk : ident = k
    · subst hk
      simp [List.lookup] at h
    · have hb : (ident == k) = false := beq_false_of_ne hk
      simp only [List.lookup, hb] at h ⊢
      exact ih h

/-- C5: missing-attribute fatal.  For an access that misses cache
(the cell is empty): a remote transport failure is returned as an
ordinary error result (never a panic); a successful response that
omits the requested issue panics with the lookup-failed message; a
successful response whose record leaves the requested attribute empty
panics with the missing-data message; and whenever the access returns
`ok`, the cell is populated with the returned value — never left
silently empty. -/
theorem missing_attribute_fatal {α : Type} (api : IssueAPI) (ident : String)
    (cell : Lazy α) (attr : IssueAttribute) (field : IssueData → Lazy α)
    (hcell : cell = .empty) :
    (∀ e, api.raw_response [ident] [attr] = .error e →
      (load_lazy_attribute api ident cell attr field).1 = .err e) ∧
    (∀ raws, api.raw_response [ident] [attr] = .ok raws →
      (raws.lookup ident = none →
        (load_lazy_attribute api ident cell attr field).1
          = .panic ("Issue data lookup failed")) ∧
      (∀ record, raws.lookup ident = some record →
        field (IssueData.from_raw_data ident record) = .empty →
        (load_lazy_attribute api ident cell attr field).1
          = .panic ("Invalid missing data during lookup"))) ∧
    (∀ v c, (load_lazy_attribute api ident cell attr field).1 = .ok v c →
      c = .populated v) := by
  subst hcell
  refine ⟨?_, ?_, ?_⟩
  · intro e he
    unfold load_lazy_attribute IssueAPI.get_issue_data
    simp [Lazy.get, he]
  · intro raws hraws
    constructor
    · intro hnone
      have h2 := lookup_map_from_raw_none raws ident hnone
      unfold load_lazy_attribute IssueAPI.get_issue_data
      simp [Lazy.get, hraws, h2]
    · intro record hsome hempty
      have h2 := lookup_map_from_raw raws ident record hsome
      unfold load_lazy_attribute IssueAPI.get_issue_data
      simp [Lazy.get, hraws, h2, hempty]
  · intro v c h
    unfold load_lazy_attribute IssueAPI.get_issue_data at h
    revert h
    cases hr : api.raw_response [ident] [attr] with
    | error e => intro h; simp [Lazy.get, hr] at h
    | ok raws =>
      cases hl : (raws.map (fun p => (p.1, IssueData.from_raw_data p.1 p.2))).lookup ident with
      | none => intro h; simp [Lazy.get, hr, hl] at h
      | some record =>
        cases hfr : field record with
        | empty => intro h; simp [Lazy.get, hr, hl, hfr] at h
        | populated x =>
          intro h
          simp [Lazy.get, hr, hl, hfr, Lazy.get_or_create, LoadResult.ok.injEq] at h
          obtain ⟨h1, h2⟩ := h
          subst h1
          exact h2.symm

/-- An oracle whose transport always fails. -/
def apiDown : IssueAPI :=
  { raw_response := fun _ _ => .error { msg := "network down" } }

/-- An oracle that succeeds but omits the requested issue. -/
def apiEmptyResp : IssueAPI :=
  { raw_response := fun _ _ => .ok [] }

/-- An oracle that returns the requested issue but with no attribute
populated. -/
def apiNoAttr : IssueAPI :=
  { raw_response := fun _ _ => .ok [(("X-1"), RawIssueData.default)] }

/-- Witness for C5: the three failure shapes at concrete inputs. -/
theorem missing_attribute_fatal_witness :
    (load_lazy_attribute apiDown ("X-1") (Lazy.empty : Lazy String)
        IssueAttribute.Key (fun r => r.key)).1 = .err { msg := "network down" } ∧
    (load_lazy_attribute apiEmptyResp ("X-1") (Lazy.empty : Lazy String)
        IssueAttribute.Key (fun r => r.key)).1 = .panic ("Issue data lookup failed") ∧
    (load_lazy_attribute apiNoAttr ("X-1") (Lazy.empty : Lazy String)
        IssueAttribute.Key (fun r => r.key)).1 = .panic ("Invalid missing data during lookup") := by
  refine ⟨?_, ?_, ?_⟩
  · exact (missing_attribute_fatal apiDown ("X-1") Lazy.empty
      IssueAttribute.Key (fun r => r.key) rfl).1 _ rfl
  · exact ((missing_attribute_fatal apiEmptyResp ("X-1") Lazy.empty
      IssueAttribute.Key (fun r => r.key) rfl).2.1 [] rfl).1 rfl
  · exact ((missing_attribute_fatal apiNoAttr ("X-1") Lazy.empty
      IssueAttribute.Key (fun r => r.key) rfl).2.1 [(("X-1"), RawIssueData.default)] rfl).2
      RawIssueData.default (by simp [List.lookup]) rfl

/-! ## Model policy theorems (C2, C3, C6, C8) -/

/-- A model-endpoint oracle whose every remote call fails. -/
def failingModelApi : ModelAPI :=
  { get_model_config := fun _ => .error { msg := "write endpoint down" },
    write_result := fun _ _ _ => .error { msg := "write endpoint down" } }

/-- A concrete model under `ReadLocalWriteNoFetch` with a warmed
config cache. -/
def model0 : Model :=
  { id := "m-1", name := "old-name", config := some [],
    data_policy := ConfigHandlingPolicy.ReadLocalWriteNoFetch }

/-- C2 (code bug evaluated at the failing input): the remote write
issued by `Model::update_config` / `Model::update_name` fails, yet —
because the source discards the `Result` of
`self.api.update_model_config(...)` — both methods return `Ok(())`,
`update_config` overwrites the local config cache with the just-written
value, and `update_name` overwrites the locally cached name.  The
claim (and the spec) require the failure to be reported and the local
cache left unchanged. -/
theorem update_write_failure_ignored :
    failingModelApi.write_result ("m-1") ("old-name") [(("k"), Value.null)]
      = .error { msg := "write endpoint down" } ∧
    Model.update_config model0 failingModelApi [(("k"), Value.null)]
      = (.ok (), { model0 with config := some [(("k"), Value.null)] },
         [.write ("m-1") ("old-name") [(("k"), Value.null)]]) ∧
    failingModelApi.write_result ("m-1") ("new-name") []
      = .error { msg := "write endpoint down" } ∧
    Model.update_name model0 failingModelApi ("new-name")
      = (.ok (), { model0 with name := ("new-name") },
         [.write ("m-1") ("new-name") []]) :=
  ⟨rfl, rfl, rfl, rfl⟩

/-- C3: write atomicity of the pre-write fetch.  Under every policy
whose `update_config` first fetches the companion name remotely
(every policy except `ReadLocalWriteNoFetch`), a failing pre-write
fetch makes `update_config` return that failure, with no remote write
issued (the call list is just the one fetch) and the local state —
config cache included — unchanged. -/
theorem update_config_prefetch_atomic (m : Model) (api : ModelAPI)
    (config : ConfigMap) (e : RemoteError)
    (hpol : m.data_policy ≠ ConfigHandlingPolicy.ReadLocalWriteNoFetch)
    (hfetch : api.get_model_config m.id = .error e) :
    Model.update_config m api config = (.error e, m, [.fetch m.id]) := by
  obtain ⟨id, name, cfg0, pol⟩ := m
  cases pol with
  | ReadLocalWriteNoFetch => exact absurd rfl hpol
  | ReadFetchWriteWithFetch => simp [Model.update_config, hfetch]
  | ReadLocalWriteWithFetch => simp [Model.update_config, hfetch]

/-- A concrete model under `ReadFetchWriteWithFetch`. -/
def modelWF : Model :=
  { id := "m-2", name := "n", config := none,
    data_policy := ConfigHandlingPolicy.ReadFetchWriteWithFetch }

/-- Witness for C3: with the always-failing oracle, `update_config`
on `modelWF` reports the fetch failure, issues no write and leaves
the model unchanged. -/
theorem update_config_prefetch_atomic_witness :
    Model.update_config modelWF failingModelApi []
      = (.error { msg := "write endpoint down" }, modelWF, [.fetch ("m-2")]) :=
  update_config_prefetch_atomic modelWF failingModelApi []
    { msg := "write endpoint down" } (by decide) rfl

/-- C6: policy read contract for `Model::config()`.  Under
`ReadFetchWriteWithFetch` every call fetches exactly once, returns
the freshly fetched config, neither reads nor writes the local cache
(the state is unchanged and the result ignores the cache contents),
so a second successive call fetches again.  Under
`ReadLocalWriteNoFetch`, a call on a populated cache returns the
cached value with zero fetches, and a call on an empty cache fetches
once, stores the result, and the successive call reuses it with zero
fetches. -/
theorem config_policy_read_contract (m : Model) (api : ModelAPI) :
    (m.data_policy = ConfigHandlingPolicy.ReadFetchWriteWithFetch →
      (Model.get_config m api).2.1 = m ∧
      (Model.get_config m api).2.2 = [.fetch m.id] ∧
      (∀ r, api.get_model_config m.id = .ok r →
        (Model.get_config m api).1 = .ok r.model_config) ∧
      (∀ c, (Model.get_config { m with config := c } api).1
        = (Model.get_config m api).1) ∧
      (Model.get_config ((Model.get_config m api).2.1) api).2.2 = [.fetch m.id]) ∧
    (m.data_policy = ConfigHandlingPolicy.ReadLocalWriteNoFetch →
      (∀ cfg, m.config = some cfg → Model.get_config m api = (.ok cfg, m, [])) ∧
      (m.config = none → ∀ r, api.get_model_config m.id = .ok r →
        Model.get_config m api
          = (.ok r.model_config, { m with config := some r.model_config }, [.fetch m.id]) ∧
        Model.get_config { m with config := some r.model_config } api
          = (.ok r.model_config, { m with config := some r.model_config }, []))) := by
  constructor
  · intro hp
    cases hg : api.get_model_config m.id with
    | ok r =>
      refine ⟨by simp [Model.get_config, hp, hg], by simp [Model.get_config, hp, hg],
        ?_, ?_, ?_⟩
      · intro r2 hr2
        cases hr2
        simp [Model.get_config, hp, hg]
      · intro c
        simp [Model.get_config, hp, hg]
      · simp [Model.get_config, hp, hg]
    | error e =>
      refine ⟨by simp [Model.get_config, hp, hg], by simp [Model.get_config, hp, hg],
        ?_, ?_, ?_⟩
      · intro r2 hr2
        cases hr2
      · intro c
        simp [Model.get_config, hp, hg]
      · simp [Model.get_config, hp, hg]
  · intro hp
    constructor
    · intro cfg hc
      simp [Model.get_config, hp, hc]
    · intro hnone r hr
      constructor
      · simp [Model.get_config, hp, hnone, hr]
      · simp [Model.get_config, hp]
/-- A model-endpoint oracle with a fixed successful config. -/
def apiCfg : ModelAPI :=
  { get_model_config := fun _ =>
      .ok { model_id := "m-3", model_name := "nm", model_config := [(("a"), Value.num 1)] },
    write_result := fun _ _ _ => .ok () }

/-- A concrete model under `ReadFetchWriteWithFetch` for the C6
witness. -/
def modelWithFetch : Model :=
  { id := "m-3", name := "nm", config := none,
    data_policy := ConfigHandlingPolicy.ReadFetchWriteWithFetch }

/-- A concrete model under `ReadLocalWriteNoFetch` with an empty
cache for the C6 witness. -/
def modelNoFetch : Model :=
  { id := "m-3", name := "nm", config := none,
    data_policy := ConfigHandlingPolicy.ReadLocalWriteNoFetch }

/-- Witness for C6: under the with-fetch policy two successive calls
each fetch; under the no-fetch policy the first call fetches and
caches, the second returns the cached value with zero fetches. -/
theorem config_policy_read_contract_witness :
    ((Model.get_config modelWithFetch apiCfg).2.2 = [.fetch ("m-3")] ∧
     (Model.get_config ((Model.get_config modelWithFetch apiCfg).2.1) apiCfg).2.2
       = [.fetch ("m-3")]) ∧
    (Model.get_config modelNoFetch apiCfg
       = (.ok [(("a"), Value.num 1)],
          { modelNoFetch with config := some [(("a"), Value.num 1)] }, [.fetch ("m-3")]) ∧
     Model.get_config { modelNoFetch with config := some [(("a"), Value.num 1)] } apiCfg
       = (.ok [(("a"), Value.num 1)],
          { modelNoFetch with config := some [(("a"), Value.num 1)] }, [])) := by
  have h1 := (config_policy_read_contract modelWithFetch apiCfg).1 rfl
  have h2 := ((config_policy_read_contract modelNoFetch apiCfg).2 rfl).2 rfl
    { model_id := "m-3", model_name := "nm", model_config := [(("a"), Value.num 1)] } rfl
  exact ⟨⟨h1.2.1, h1.2.2.2.2⟩, ⟨h2.1, h2.2⟩⟩

/-- C8: identity ignores cache state.  Two `Model` values are equal
(`PartialEq`) and feed identical data to the hasher if and only if
their remote identifiers are equal — regardless of cached name,
cached config contents, cache-population state, or policy; two
`ModelVersion` values are equal and hash identically if and only if
their (model id, version id) pairs are equal, regardless of any other
field. -/
theorem identity_ignores_cache :
    (∀ a b : Model,
      ((Model.beq a b = true) ↔ a.id = b.id) ∧
      (Model.hash_stream a = Model.hash_stream b ↔ a.id = b.id)) ∧
    (∀ a b : ModelVersion,
      ((ModelVersion.beq a b = true) ↔ (a.model = b.model ∧ a.version = b.version)) ∧
      (ModelVersion.hash_stream a = ModelVersion.hash_stream b
        ↔ (a.model = b.model ∧ a.version = b.version))) := by
  constructor
  · intro a b
    constructor
    · simp [Model.beq]
    · simp [Model.hash_stream]
  · intro a b
    constructor
    · simp [ModelVersion.beq]
    · simp [ModelVersion.hash_stream, and_comm]

/-! ## Comment-order restoration (C7) -/

/-- Sample raw comment. -/
def rawA : RawComment := { author := "alice", comment := "first" }

/-- Sample raw comment. -/
def rawB : RawComment := { author := "bob", comment := "second" }

/-- Sample raw comment. -/
def rawC : RawComment := { author := "carol", comment := "third" }

instance : DecidableRel (fun (p q : Nat × UnboundComment) => p.1 ≤ q.1) :=
  fun p q => Nat.decLe p.1 q.1

instance : IsTotal (Nat × UnboundComment) (fun p q => p.1 ≤ q.1) :=
  ⟨fun p q => Nat.le_total p.1 q.1⟩

instance : IsTrans (Nat × UnboundComment) (fun p q => p.1 ≤ q.1) :=
  ⟨fun _ _ _ h1 h2 => Nat.le_trans h1 h2⟩

/-- When every comment id parses, the id-parsing loop succeeds and
returns the parsed keys in order. -/
theorem parse_comment_ids_ok (cs : List UnboundComment)
    (h : ∀ c ∈ cs, (parse_u128 c.id).isSome) :
    parse_comment_ids cs = .ok (cs.map (fun c => (parse_u128 c.id).getD 0)) := by
  induction cs with
  | nil => rfl
  | cons c rest ih =>
    have hc := h c (List.mem_cons_self c rest)
    obtain ⟨n, hn⟩ := Option.isSome_iff_exists.mp hc
    have hrest := ih (fun x hx => h x (List.mem_cons_of_mem c hx))
    simp [parse_comment_ids, hn, hrest]

/-- When any comment id fails to parse, the id-parsing loop fails. -/
theorem parse_comment_ids_err (cs : List UnboundComment)
    (h : ∃ c ∈ cs, parse_u128 c.id = none) :
    ∃ e, parse_comment_ids cs = .error e := by
  induction cs with
  | nil => simp at h
  | cons c rest ih =>
    obtain ⟨x, hx, hpx⟩ := h
    cases hp : parse_u128 c.id with
    | none => exact ⟨{ msg := c.id }, by simp [parse_comment_ids, hp]⟩
    | some n =>
      rcases List.mem_cons.mp hx with heq | hmem
      · subst heq
        simp [hp] at hpx
      · obtain ⟨e, he⟩ := ih ⟨x, hmem, hpx⟩
        exact ⟨e, by simp [parse_comment_ids, hp, he]⟩

/-- Zipping a key-mapped list with the original list pairs each
element with its own key. -/
theorem zip_map_self (f : α → β) (l : List α) :
    (l.map f).zip l = l.map (fun a => (f a, a)) := by
  induction l with
  | nil => rfl
  | cons a rest ih => simp [ih]

/-- C7: order restoration for labeling comments.  When every response
key parses as an unsigned 128-bit integer, the call returns exactly
the comments arranged in ascending order of their parsed keys (the
keys discarded); when any key fails to parse, the whole call fails
with an ID-parsing error, so no comment is ever silently skipped; and
on the spec's example `{"10": a, "2": b, "33": c}` the result is
`[b, a, c]`. -/
theorem comments_order_restoration (response : List (String × RawComment)) :
    ((∀ p ∈ response, (parse_u128 p.1).isSome) →
      ∃ pairs : List (Nat × UnboundComment),
        List.Perm pairs (response.map (fun p => ((parse_u128 p.1).getD 0, raw_to_comment p))) ∧
        List.Sorted (fun a b => a.1 ≤ b.1) pairs ∧
        get_labeling_comments_for_issue response = .ok (pairs.map Prod.snd)) ∧
    ((∃ p ∈ response, parse_u128 p.1 = none) →
      ∃ e, get_labeling_comments_for_issue response = .error e) ∧
    get_labeling_comments_for_issue [(("10"), rawA), (("2"), rawB), (("33"), rawC)]
      = .ok [raw_to_comment (("2"), rawB), raw_to_comment (("10"), rawA),
             raw_to_comment (("33"), rawC)] := by
  refine ⟨?_, ?_, ?_⟩
  · intro h
    have hconv : ∀ c ∈ response.map raw_to_comment, (parse_u128 c.id).isSome := by
      intro c hc
      obtain ⟨p, hp, rfl⟩ := List.mem_map.mp hc
      exact h p hp
    have hok := parse_comment_ids_ok (response.map raw_to_comment) hconv
    refine ⟨List.insertionSort (fun a b => a.1 ≤ b.1)
      ((response.map raw_to_comment).map (fun c => ((parse_u128 c.id).getD 0, c))),
      ?_, ?_, ?_⟩
    · have hperm := List.perm_insertionSort (fun (a b : Nat × UnboundComment) => a.1 ≤ b.1)
        ((response.map raw_to_comment).map (fun c => ((parse_u128 c.id).getD 0, c)))
      refine hperm.trans ?_
      rw [List.map_map]
      exact List.Perm.refl _
    · exact List.sorted_insertionSort _ _
    · simp only [get_labeling_comments_for_issue, hok, zip_map_self]
  · intro h
    obtain ⟨p, hp, hnone⟩ := h
    obtain ⟨e, he⟩ := parse_comment_ids_err (response.map raw_to_comment)
      ⟨raw_to_comment p, List.mem_map_of_mem raw_to_comment hp, hnone⟩
    exact ⟨e, by simp only [get_labeling_comments_for_issue, he]⟩
  · rfl

/-- Witness for C7: with a non-numeric key `x` the call fails; with
keys `10` and `2` the call succeeds and the sorted pair list exists. -/
theorem comments_order_restoration_witness :
    (∃ e, get_labeling_comments_for_issue [(("x"), rawA)] = .error e) ∧
    (∃ pairs : List (Nat × UnboundComment),
      List.Perm pairs ([(("10"), rawA), (("2"), rawB)].map
        (fun p => ((parse_u128 p.1).getD 0, raw_to_comment p))) ∧
      List.Sorted (fun a b => a.1 ≤ b.1) pairs ∧
      get_labeling_comments_for_issue [(("10"), rawA), (("2"), rawB)]
        = .ok (pairs.map Prod.snd)) := by
  constructor
  · exact (comments_order_restoration [(("x"), rawA)]).2.1
      ⟨(("x"), rawA), List.mem_singleton_self _, rfl⟩
  · exact (comments_order_restoration [(("10"), rawA), (("2"), rawB)]).1 (by decide)

end IssueDB
